import Mathlib

/-
Verification of the subscription / entitlement engine of the SPECTRUM-API
backend (routes/task.js and routes/payments.js), as a shallow embedding.

Modelling conventions:
  - Firestore date fields (ISO strings written by the code itself) are
    modelled as epoch timestamps (Int); a missing or null field is none.
    JavaScript comparison of two such dates is integer comparison, and a
    present date string is truthy.
  - Numeric fields that may be absent are Option Int; JavaScript
    truthiness of a number is: 0 and null are falsy.
  - The Firestore package lookup done by an endpoint is passed in as an
    Option Package argument (none models an empty query snapshot).
  - The calendar arithmetic of the JavaScript Date setters is kept
    abstract: parseDuration returns the unit and count that the code
    branches on, and the activation procedures receive the already
    computed expiry timestamp as an argument.
  - The external LLM call inside generate-tasks is modelled by a Bool
    flag genOk (false models a failed or unparsable completion, on which
    the code returns early without writing anything) together with the
    produced markdown text.
-/

namespace Spectrum

/-- Per-user account record: the subscription and quota fields read and
written by the route handlers. -/
structure Account where
  subscriptionStatus : String
  subscriptionDate : Option Int
  expiryDate : Option Int
  packageId : Option String
  remainingPosts : Option Int
  remainingPrompts : Option Int
  trialPostsUsed : Option Int
  trialPackage : Bool
  maxGroup : Option Int
  storage : Option Int
  updatedAt : Option Int
  deriving DecidableEq

/-- Package record: purchasable plan definition. -/
structure Package where
  packageId : String
  duration : Option String
  packageLimit : Option Int
  trialPosts : Option Int
  storage : Option Int
  maxGroup : Option Int
  deriving DecidableEq

/-- Post document inside users/posts, as far as generate-tasks reads and
writes it. -/
structure Post where
  title : String
  markdown : String
  taskGenerated : Bool
  deriving DecidableEq

/-- Denial reasons produced by the handlers, named after the error
taxonomy of the specification. -/
inductive DenyReason where
  | noSubscription
  | expired
  | trialLimitExceeded
  | quotaExhausted
  | trialAlreadyUsed
  deriving DecidableEq

/-- Result of a consume-style endpoint (generate-post, generate-group). -/
inductive ConsumeResult where
  | denied (r : DenyReason)
  | ok
  deriving DecidableEq

/-- Result of the generate-tasks endpoint. -/
inductive TasksResult where
  | alreadyExists (markdown : String)
  | denied (r : DenyReason)
  | genFailed
  | ok
  deriving DecidableEq

/-- Result of an activation. -/
inductive ActResult where
  | denied (r : DenyReason)
  | ok
  deriving DecidableEq

/-- JavaScript truthiness of an optional number: null and 0 are falsy. -/
def jsTruthyInt : Option Int → Bool
  | none => false
  | some n => n != 0

/-- JavaScript truthiness of an optional string: null and the empty
string are falsy. -/
def jsTruthyStr : Option String → Bool
  | none => false
  | some s => s != ""

/-- Embeds: userData.expiryDate && new Date(userData.expiryDate) < now.
A missing date is falsy, so no expiry means never expired. -/
def expiredNow (expiry : Option Int) (now : Int) : Bool :=
  match expiry with
  | none => false
  | some e => decide (e < now)

/-- Embeds: new Date(a) > new Date(b).  Comparison with a missing date
(Invalid Date, NaN timestamp) is always false in JavaScript. -/
def dateGt : Option Int → Option Int → Bool
  | some s, some e => decide (e < s)
  | _, _ => false

/-- Embeds the trial classification of task.js:
subscriptionDate && packageId && (!expiryDate || subscriptionDate > expiryDate). -/
def isTrialPeriod (a : Account) : Bool :=
  a.subscriptionDate.isSome && jsTruthyStr a.packageId &&
    (a.expiryDate.isNone || dateGt a.subscriptionDate a.expiryDate)

/-- Embeds the paid-quota rejection test of task.js:
!counter || counter <= 0 (applied to remainingPosts or remainingPrompts). -/
def paidCounterDenied (r : Option Int) : Bool :=
  !(jsTruthyInt r) || decide (r.getD 0 ≤ 0)

/-- The generate-post endpoint of task.js, after the user document has
been found.  pkg is the snapshot of the packages query for the account
packageId; now is the current time.  Returns the response outcome and
the stored account after the request. -/
def generatePost (pkg : Option Package) (a : Account) (now : Int) :
    ConsumeResult × Account :=
  if a.subscriptionStatus != "active" then (.denied .noSubscription, a)
  else if expiredNow a.expiryDate now then (.denied .expired, a)
  else if isTrialPeriod a then
    match pkg with
    | some p =>
      if decide (p.trialPosts.getD 0 ≤ a.trialPostsUsed.getD 0) then
        (.denied .trialLimitExceeded, a)
      else
        (.ok, a)
    | none => (.ok, a)
  else
    if paidCounterDenied a.remainingPosts then (.denied .quotaExhausted, a)
    else
      (.ok, { a with remainingPosts := some (a.remainingPosts.getD 0 - 1),
                     updatedAt := some now })

/-- The generate-group endpoint of task.js, after the user document has
been found. -/
def generateGroup (a : Account) (now : Int) : ConsumeResult × Account :=
  if a.subscriptionStatus != "active" then (.denied .noSubscription, a)
  else if expiredNow a.expiryDate now then (.denied .expired, a)
  else if decide (a.maxGroup.getD 0 ≤ 0) then (.denied .quotaExhausted, a)
  else
    (.ok, { a with maxGroup := some (a.maxGroup.getD 0 - 1),
                   updatedAt := some now })

/-- The generate-tasks endpoint of task.js, after the post and the user
documents have been found.  genOk models whether the external task
generation produced a valid task list; md is the produced markdown.
Returns the response outcome, the stored account and the stored post. -/
def generateTasks (pkg : Option Package) (a : Account) (post : Post)
    (genOk : Bool) (md : String) (now : Int) :
    TasksResult × Account × Post :=
  if post.taskGenerated then (.alreadyExists post.markdown, a, post)
  else if a.subscriptionStatus != "active" then (.denied .noSubscription, a, post)
  else if expiredNow a.expiryDate now then (.denied .expired, a, post)
  else if isTrialPeriod a then
    match pkg with
    | some p =>
      if decide (p.trialPosts.getD 0 ≤ a.trialPostsUsed.getD 0) then
        (.denied .trialLimitExceeded, a, post)
      else if genOk then
        (.ok,
         { a with trialPostsUsed := some (a.trialPostsUsed.getD 0 + 1),
                  updatedAt := some now },
         { post with taskGenerated := true, markdown := md })
      else (.genFailed, a, post)
    | none =>
      if genOk then
        (.ok,
         { a with trialPostsUsed := some (a.trialPostsUsed.getD 0 + 1),
                  updatedAt := some now },
         { post with taskGenerated := true, markdown := md })
      else (.genFailed, a, post)
  else
    if paidCounterDenied a.remainingPrompts then
      (.denied .quotaExhausted, a, post)
    else if genOk then
      (.ok,
       { a with remainingPrompts := some (a.remainingPrompts.getD 0 - 1),
                updatedAt := some now },
       { post with taskGenerated := true, markdown := md })
    else (.genFailed, a, post)

/-- Value of a maximal digit run, read left to right. -/
def digitsVal (l : List Char) : Nat :=
  l.foldl (fun acc c => acc * 10 + (c.toNat - 48)) 0

/-- First maximal digit run of a character list, if any.  Embeds the
regular expression match for one or more digits. -/
def firstRun : List Char → Option (List Char)
  | [] => none
  | c :: rest =>
    if c.isDigit then some (c :: rest.takeWhile Char.isDigit)
    else firstRun rest

/-- Embeds: parseInt(s.match(a digit run)[0]) as an optional number. -/
def firstIntRun (s : String) : Option Nat :=
  (firstRun s.toList).map digitsVal

/-- Tests whether the first list is an initial segment of the second. -/
def leadsWith : List Char → List Char → Bool
  | [], _ => true
  | _ :: _, [] => false
  | a :: as, b :: bs => a == b && leadsWith as bs

/-- Tests whether pat occurs contiguously somewhere in the list. -/
def hasInfix (pat : List Char) : List Char → Bool
  | [] => pat.isEmpty
  | c :: rest => leadsWith pat (c :: rest) || hasInfix pat rest

/-- Substring containment, embedding the JavaScript includes test. -/
def containsSub (s pat : String) : Bool :=
  hasInfix pat.toList s.toList

/-- Amount of calendar time added to now by the activation code: the
unit picked by the duration branch and the count passed to the
corresponding JavaScript Date setter. -/
inductive DurationAdd where
  | years (n : Nat)
  | months (n : Nat)
  | days (n : Nat)
  deriving DecidableEq

/-- The duration parsing of payments.js: check, in order, whether the
duration string contains year, month or day; take the first digit run
anywhere in the string, with defaults 1, 1 and 30; a string containing
no unit falls back to one year. -/
def parseDuration (s : String) : DurationAdd :=
  if containsSub s "year" then .years ((firstIntRun s).getD 1)
  else if containsSub s "month" then .months ((firstIntRun s).getD 1)
  else if containsSub s "day" then .days ((firstIntRun s).getD 30)
  else .years 1

/-- Embeds: packageData.duration || the one year literal. -/
def durationOf (o : Option String) : String :=
  match o with
  | some s => if s = "" then "1 year" else s
  | none => "1 year"

/-- Embeds: packageData.packageLimit ? parseInt(packageData.packageLimit) : null.
A falsy limit (missing or zero) is stored as null. -/
def resolveLimit : Option Int → Option Int
  | some n => if n = 0 then none else some n
  | none => none

/-- The free-package branch of create-payment-intent in payments.js,
after the package and the user documents have been found: reject when
the trial was already used, otherwise overwrite the subscription and
quota fields and mark the trial as used.  expiry is the timestamp the
code computed from the package duration. -/
def activateFree (pkg : Package) (a : Account) (now expiry : Int) :
    ActResult × Account :=
  if a.trialPackage then (.denied .trialAlreadyUsed, a)
  else
    (.ok,
     { a with subscriptionStatus := "active",
              packageId := some pkg.packageId,
              subscriptionDate := some now,
              expiryDate := some expiry,
              remainingPosts := resolveLimit pkg.packageLimit,
              remainingPrompts := resolveLimit pkg.packageLimit,
              storage := some (pkg.storage.getD 0),
              maxGroup := some (pkg.maxGroup.getD 0),
              trialPackage := true,
              updatedAt := some now })

/-- The account update of confirm-payment in payments.js, after the
payment succeeded and the package and user documents have been found.
expiry is the timestamp the code computed from the package duration. -/
def confirmPaymentUpdate (pkg : Package) (a : Account) (now expiry : Int) :
    Account :=
  { a with subscriptionStatus := "active",
           packageId := some pkg.packageId,
           subscriptionDate := some now,
           expiryDate := some expiry,
           remainingPosts := resolveLimit pkg.packageLimit,
           remainingPrompts := resolveLimit pkg.packageLimit,
           storage := some (pkg.storage.getD 0),
           maxGroup := some (pkg.maxGroup.getD 0),
           updatedAt := some now }

/-- Nonnegativity of an optional counter: absent counters vacuously
satisfy it. -/
def nonnegOpt (o : Option Int) : Prop := ∀ n, o = some n → 0 ≤ n

/-- The trial classification as the specification words it. -/
def trialModeSpec (a : Account) : Prop :=
  a.subscriptionDate.isSome = true ∧ jsTruthyStr a.packageId = true ∧
    (a.expiryDate = none ∨
      ∃ s e, a.subscriptionDate = some s ∧ a.expiryDate = some e ∧ e < s)

/-- Sample package used to instantiate theorems with hypotheses. -/
def pkgBasic : Package :=
  { packageId := "p1", duration := some "1 year", packageLimit := some 5,
    trialPosts := some 5, storage := some 10, maxGroup := some 2 }

/-- Sample fresh post with no generated tasks. -/
def postFresh : Post :=
  { title := "idea", markdown := "", taskGenerated := false }

/-- Sample trial-mode account: active, subscription date after expiry
date, expiry in the future of time 0. -/
def trialAcct : Account :=
  { subscriptionStatus := "active", subscriptionDate := some 100,
    expiryDate := some 50, packageId := some "p1",
    remainingPosts := some 3, remainingPrompts := some 3,
    trialPostsUsed := some 0, trialPackage := false,
    maxGroup := some 2, storage := some 10, updatedAt := none }

/-- Sample paid-mode account holding null quota counters. -/
def paidNullAcct : Account :=
  { subscriptionStatus := "active", subscriptionDate := some 0,
    expiryDate := some 1000, packageId := some "p1",
    remainingPosts := none, remainingPrompts := none,
    trialPostsUsed := some 0, trialPackage := false,
    maxGroup := some 2, storage := some 10, updatedAt := none }

/-- Sample package whose packageLimit is the number 0. -/
def pkgZero : Package := { pkgBasic with packageLimit := some 0 }

/-- Sample account that already consumed its free trial package. -/
def usedAcct : Account := { trialAcct with trialPackage := true }

/-- Sample active account whose expiry date lies in the past of time 0. -/
def expiredAcct : Account := { paidNullAcct with expiryDate := some (-5) }

/-- Claim C3, counterexample: the claim says a duration string that
contains a unit but no integer yields now + 1 year, but on the string
day the code yields now + 30 days (the day branch defaults to 30). -/
theorem claim3_counterexample :
    parseDuration "day" = DurationAdd.days 30 ∧
    DurationAdd.days 30 ≠ DurationAdd.years 1 := by decide

/-- Claim C3 (amended): parseDuration checks, in order, whether the
duration string contains year, month or day anywhere (case-sensitive)
and takes the first digit run anywhere in the string: 6 months yields
now + 6 calendar months; a string containing none of the three units
yields now + 1 year; a matched unit with no integer falls back to that
unit with its own default count (1 year, 1 month, 30 days). -/
theorem claim3_duration_amended (s t u : String)
    (hy : containsSub s "year" = false) (hm : containsSub s "month" = false)
    (hd : containsSub s "day" = true) (hn : firstIntRun s = none)
    (ty : containsSub t "year" = false) (tm : containsSub t "month" = false)
    (td : containsSub t "day" = false)
    (uy : containsSub u "year" = false) (um : containsSub u "month" = true)
    (un : firstIntRun u = none) :
    parseDuration "6 months" = DurationAdd.months 6 ∧
    parseDuration s = DurationAdd.days 30 ∧
    parseDuration t = DurationAdd.years 1 ∧
    parseDuration u = DurationAdd.months 1 := by
  refine ⟨by decide, ?_, ?_, ?_⟩
  · simp [parseDuration, hy, hm, hd, hn]
  · simp [parseDuration, ty, tm, td]
  · simp [parseDuration, uy, um, un]

/-- Claim C3 witness. -/
theorem claim3_duration_amended_witness :
    parseDuration "6 months" = DurationAdd.months 6 ∧
    parseDuration "some days" = DurationAdd.days 30 ∧
    parseDuration "garbage" = DurationAdd.years 1 ∧
    parseDuration "month" = DurationAdd.months 1 :=
  claim3_duration_amended "some days" "garbage" "month"
    (by decide) (by decide) (by decide) (by decide)
    (by decide) (by decide) (by decide)
    (by decide) (by decide) (by decide)

/-- Claim C4: for every account with subscriptionStatus active and an
expiry date strictly before now, each of generate-post, generate-tasks
(on a post without generated tasks) and generate-group denies with the
expired reason and stores the account unchanged, whatever the values of
the quota counters. -/
theorem claim4_expired_denied (pkg : Option Package) (a : Account) (post : Post)
    (genOk : Bool) (md : String) (now e : Int)
    (hs : a.subscriptionStatus = "active")
    (hd : a.expiryDate = some e) (hlt : e < now)
    (hp : post.taskGenerated = false) :
    generatePost pkg a now = (ConsumeResult.denied DenyReason.expired, a) ∧
    generateTasks pkg a post genOk md now
      = (TasksResult.denied DenyReason.expired, a, post) ∧
    generateGroup a now = (ConsumeResult.denied DenyReason.expired, a) := by
  have hx : expiredNow a.expiryDate now = true := by
    simp [expiredNow, hd]; omega
  refine ⟨?_, ?_, ?_⟩ <;>
    simp [generatePost, generateTasks, generateGroup, hs, hx, hp]

/-- Claim C4 witness: the expired-account scenario at concrete values. -/
theorem claim4_expired_denied_witness :
    generatePost none expiredAcct 0 = (ConsumeResult.denied DenyReason.expired, expiredAcct) ∧
    generateTasks none expiredAcct postFresh true "m" 0
      = (TasksResult.denied DenyReason.expired, expiredAcct, postFresh) ∧
    generateGroup expiredAcct 0 = (ConsumeResult.denied DenyReason.expired, expiredAcct) :=
  claim4_expired_denied none expiredAcct postFresh true "m" 0 (-5)
    rfl rfl (by decide) rfl

/-- Claim C6: a free-package activation on an account whose
trialPackage flag is already true always fails with the
trial-already-used reason, and the stored account is the unmodified
input account. -/
theorem claim6_free_rejected (pkg : Package) (a : Account) (now expiry : Int)
    (h : a.trialPackage = true) :
    activateFree pkg a now expiry = (ActResult.denied DenyReason.trialAlreadyUsed, a) := by
  simp [activateFree, h]

/-- Claim C6 witness: the rejected free activation at concrete values. -/
theorem claim6_free_rejected_witness :
    activateFree pkgBasic usedAcct 0 9
      = (ActResult.denied DenyReason.trialAlreadyUsed, usedAcct) :=
  claim6_free_rejected pkgBasic usedAcct 0 9 rfl

/-- Claim C9: when the post already has taskGenerated set, the
generate-tasks endpoint returns the stored markdown as an
already-exists success, before any subscription or quota evaluation,
and both the account and the post are stored unchanged. -/
theorem claim9_already_generated (pkg : Option Package) (a : Account) (post : Post)
    (genOk : Bool) (md : String) (now : Int)
    (h : post.taskGenerated = true) :
    generateTasks pkg a post genOk md now
      = (TasksResult.alreadyExists post.markdown, a, post) := by
  simp [generateTasks, h]

/-- Claim C9 witness: the already-generated path at concrete values. -/
theorem claim9_already_generated_witness :
    generateTasks none trialAcct { postFresh with taskGenerated := true } false "m" 0
      = (TasksResult.alreadyExists ({ postFresh with taskGenerated := true } : Post).markdown,
         trialAcct, { postFresh with taskGenerated := true }) :=
  claim9_already_generated none trialAcct { postFresh with taskGenerated := true } false "m" 0 rfl

/-- Claim C10: for every activation, free or paid, of a package whose
packageLimit is falsy (missing or the number 0), the account fields
remainingPosts and remainingPrompts are stored as null rather than 0,
and the whole activation result is identical to activating the same
package with a missing packageLimit. -/
theorem claim10_falsy_limit_null (pkg : Package) (a : Account) (now expiry : Int)
    (h : pkg.packageLimit = none ∨ pkg.packageLimit = some 0) :
    (confirmPaymentUpdate pkg a now expiry).remainingPosts = none ∧
    (confirmPaymentUpdate pkg a now expiry).remainingPrompts = none ∧
    confirmPaymentUpdate pkg a now expiry
      = confirmPaymentUpdate { pkg with packageLimit := none } a now expiry ∧
    (a.trialPackage = false →
      (activateFree pkg a now expiry).2.remainingPosts = none ∧
      (activateFree pkg a now expiry).2.remainingPrompts = none) ∧
    activateFree pkg a now expiry
      = activateFree { pkg with packageLimit := none } a now expiry := by
  have hr : resolveLimit pkg.packageLimit = none := by
    rcases h with h | h <;> simp [resolveLimit, h]
  have hn : resolveLimit (none : Option Int) = none := rfl
  refine ⟨?_, ?_, ?_, ?_, ?_⟩
  · simp [confirmPaymentUpdate, hr]
  · simp [confirmPaymentUpdate, hr]
  · simp [confirmPaymentUpdate, hr, hn]
  · intro ht
    simp [activateFree, ht, hr]
  · cases htp : a.trialPackage <;> simp [activateFree, htp, hr, hn]

/-- Claim C10 witness: the zero-limit package at concrete values. -/
theorem claim10_falsy_limit_null_witness :
    (confirmPaymentUpdate pkgZero trialAcct 0 9).remainingPosts = none ∧
    (confirmPaymentUpdate pkgZero trialAcct 0 9).remainingPrompts = none :=
  ⟨(claim10_falsy_limit_null pkgZero trialAcct 0 9 (Or.inr rfl)).1,
   (claim10_falsy_limit_null pkgZero trialAcct 0 9 (Or.inr rfl)).2.1⟩

/-- Claim C1, counterexample: the claim says every successful
trial-mode consume increments trialPostsUsed by one, but a successful
trial-mode generate-post leaves trialPostsUsed at its prior value. -/
theorem claim1_counterexample :
    isTrialPeriod trialAcct = true ∧
    generatePost (some pkgBasic) trialAcct 0 = (ConsumeResult.ok, trialAcct) ∧
    (generatePost (some pkgBasic) trialAcct 0).2.trialPostsUsed
      ≠ some (trialAcct.trialPostsUsed.getD 0 + 1) := by decide

/-- Claim C1 (amended): for an eligible trial-mode account, a
successful generate-tasks consume increments trialPostsUsed by exactly
one and never checks or changes remainingPosts or remainingPrompts,
while a successful trial-mode generate-post consume stores the account
entirely unchanged, trialPostsUsed included. -/
theorem claim1_trial_consume (p : Package) (a : Account) (post : Post)
    (md : String) (now : Int)
    (hs : a.subscriptionStatus = "active")
    (he : expiredNow a.expiryDate now = false)
    (ht : isTrialPeriod a = true)
    (hq : a.trialPostsUsed.getD 0 < p.trialPosts.getD 0)
    (hp : post.taskGenerated = false) :
    generatePost (some p) a now = (ConsumeResult.ok, a) ∧
    (generateTasks (some p) a post true md now).1 = TasksResult.ok ∧
    (generateTasks (some p) a post true md now).2.1.trialPostsUsed
      = some (a.trialPostsUsed.getD 0 + 1) ∧
    (generateTasks (some p) a post true md now).2.1.remainingPosts
      = a.remainingPosts ∧
    (generateTasks (some p) a post true md now).2.1.remainingPrompts
      = a.remainingPrompts := by
  have hc : decide (p.trialPosts.getD 0 ≤ a.trialPostsUsed.getD 0) = false := by
    simp; omega
  simp [generatePost, generateTasks, hs, he, ht, hp, hc]

/-- Claim C1 witness: the trial consume at concrete values. -/
theorem claim1_trial_consume_witness :
    generatePost (some pkgBasic) trialAcct 0 = (ConsumeResult.ok, trialAcct) ∧
    (generateTasks (some pkgBasic) trialAcct postFresh true "m" 0).1 = TasksResult.ok ∧
    (generateTasks (some pkgBasic) trialAcct postFresh true "m" 0).2.1.trialPostsUsed
      = some (trialAcct.trialPostsUsed.getD 0 + 1) ∧
    (generateTasks (some pkgBasic) trialAcct postFresh true "m" 0).2.1.remainingPosts
      = trialAcct.remainingPosts ∧
    (generateTasks (some pkgBasic) trialAcct postFresh true "m" 0).2.1.remainingPrompts
      = trialAcct.remainingPrompts :=
  claim1_trial_consume pkgBasic trialAcct postFresh "m" 0
    rfl (by decide) (by decide) (by decide) rfl

/-- Claim C2, counterexample: the claim says a paid-mode consume with
a null counter is eligible and succeeds, but on a paid account with
null remainingPosts and remainingPrompts both endpoints deny with the
quota-exhausted reason. -/
theorem claim2_counterexample :
    isTrialPeriod paidNullAcct = false ∧
    paidNullAcct.remainingPosts = none ∧
    paidNullAcct.remainingPrompts = none ∧
    generatePost none paidNullAcct 0
      = (ConsumeResult.denied DenyReason.quotaExhausted, paidNullAcct) ∧
    (generateTasks none paidNullAcct postFresh true "m" 0).1
      = TasksResult.denied DenyReason.quotaExhausted ∧
    (generateTasks none paidNullAcct postFresh true "m" 0).1 ≠ TasksResult.ok := by
  decide

/-- Claim C2 (amended): for every paid-mode account whose
remainingPosts (resp. remainingPrompts) is null, the post (resp.
prompt) consume is denied with the quota-exhausted reason and the
account is stored unchanged: the check treats null like an exhausted
counter, so the null stored at activation is not honoured as
unlimited. -/
theorem claim2_null_quota_denied (pkg : Option Package) (a : Account) (post : Post)
    (genOk : Bool) (md : String) (now : Int)
    (hs : a.subscriptionStatus = "active")
    (he : expiredNow a.expiryDate now = false)
    (ht : isTrialPeriod a = false)
    (hp : a.remainingPosts = none)
    (hq : a.remainingPrompts = none)
    (hg : post.taskGenerated = false) :
    generatePost pkg a now = (ConsumeResult.denied DenyReason.quotaExhausted, a) ∧
    generateTasks pkg a post genOk md now
      = (TasksResult.denied DenyReason.quotaExhausted, a, post) := by
  simp [generatePost, generateTasks, hs, he, ht, hg,
        paidCounterDenied, jsTruthyInt, hp, hq]

/-- Claim C2 witness: the null-counter denial at concrete values. -/
theorem claim2_null_quota_denied_witness :
    generatePost none paidNullAcct 0
      = (ConsumeResult.denied DenyReason.quotaExhausted, paidNullAcct) ∧
    generateTasks none paidNullAcct postFresh false "m" 0
      = (TasksResult.denied DenyReason.quotaExhausted, paidNullAcct, postFresh) :=
  claim2_null_quota_denied none paidNullAcct postFresh false "m" 0
    rfl rfl (by decide) rfl rfl rfl

/-- Claim C5: for every account passing the status and expiry checks,
the trial classification of the code holds iff subscriptionDate is set
and packageId is set and (expiryDate is unset or subscriptionDate is
later than expiryDate); and exactly one path governs the action: in
trial mode the outcome of generate-post is independent of
remainingPosts, otherwise it is independent of trialPostsUsed. -/
theorem claim5_trial_classification (pkg : Option Package) (a : Account)
    (now : Int) (v w : Option Int)
    (hs : a.subscriptionStatus = "active")
    (he : expiredNow a.expiryDate now = false) :
    (isTrialPeriod a = true ↔ trialModeSpec a) ∧
    (isTrialPeriod a = true →
      (generatePost pkg { a with remainingPosts := v } now).1
        = (generatePost pkg a now).1) ∧
    (isTrialPeriod a = false →
      (generatePost pkg { a with trialPostsUsed := w } now).1
        = (generatePost pkg a now).1) := by
  refine ⟨?_, ?_, ?_⟩
  · unfold isTrialPeriod trialModeSpec
    cases hsd : a.subscriptionDate with
    | none => simp
    | some s =>
      cases hed : a.expiryDate with
      | none => simp [dateGt]
      | some e => simp [dateGt]
  · intro ht
    have hb : ((a.subscriptionStatus != "active") : Bool) = false := by simp [hs]
    have h1 : isTrialPeriod { a with remainingPosts := v } = true := ht
    have h2 : expiredNow ({ a with remainingPosts := v } : Account).expiryDate now = false := he
    have h3 : (({ a with remainingPosts := v } : Account).subscriptionStatus != "active") = false := hb
    simp only [generatePost, hb, h3, h2, he, h1, ht, Bool.false_eq_true, if_false, if_true]
    cases pkg with
    | none => rfl
    | some p => split <;> first | rfl | (split <;> rfl)
  · intro ht
    have hb : ((a.subscriptionStatus != "active") : Bool) = false := by simp [hs]
    have h1 : isTrialPeriod { a with trialPostsUsed := w } = false := ht
    have h2 : expiredNow ({ a with trialPostsUsed := w } : Account).expiryDate now = false := he
    have h3 : (({ a with trialPostsUsed := w } : Account).subscriptionStatus != "active") = false := hb
    simp only [generatePost, hb, h3, h2, he, h1, ht, Bool.false_eq_true, if_false, if_true]
    split <;> rfl

/-- Claim C5 witness: the classification at a concrete trial account. -/
theorem claim5_trial_classification_witness :
    (isTrialPeriod trialAcct = true ↔ trialModeSpec trialAcct) ∧
    (isTrialPeriod trialAcct = true →
      (generatePost none { trialAcct with remainingPosts := some 9 } 0).1
        = (generatePost none trialAcct 0).1) ∧
    (isTrialPeriod trialAcct = false →
      (generatePost none { trialAcct with trialPostsUsed := some 9 } 0).1
        = (generatePost none trialAcct 0).1) :=
  claim5_trial_classification none trialAcct 0 (some 9) (some 9) rfl (by decide)

/-- Claim C7: for every trial-mode account whose package lookup comes
back empty, the eligibility check is fail-open: generate-post succeeds
with the account unchanged and generate-tasks proceeds to a successful
generation, with no package-not-found or trial-limit denial. -/
theorem claim7_missing_package_fail_open (a : Account) (post : Post)
    (md : String) (now : Int)
    (hs : a.subscriptionStatus = "active")
    (he : expiredNow a.expiryDate now = false)
    (ht : isTrialPeriod a = true)
    (hp : post.taskGenerated = false) :
    generatePost none a now = (ConsumeResult.ok, a) ∧
    (generateTasks none a post true md now).1 = TasksResult.ok := by
  simp [generatePost, generateTasks, hs, he, ht, hp]

/-- Claim C7 witness: the missing-package trial consume at concrete values. -/
theorem claim7_missing_package_fail_open_witness :
    generatePost none trialAcct 0 = (ConsumeResult.ok, trialAcct) ∧
    (generateTasks none trialAcct postFresh true "m" 0).1 = TasksResult.ok :=
  claim7_missing_package_fail_open trialAcct postFresh "m" 0
    rfl (by decide) (by decide) rfl

/-- A passed paid-quota check means the counter was a positive number. -/
theorem paidCounterDenied_pos {r : Option Int} (h : paidCounterDenied r = false) :
    0 < r.getD 0 := by
  cases r with
  | none => simp [paidCounterDenied, jsTruthyInt] at h
  | some n =>
    simp [paidCounterDenied, jsTruthyInt] at h
    obtain ⟨h1, h2⟩ := h
    simp only [Option.getD_some]
    omega

/-- A positive counter decremented by one stays nonnegative. -/
theorem nonnegOpt_of_pos {x : Int} (hx : 0 < x) : nonnegOpt (some (x - 1)) := by
  intro n hn
  injection hn with h
  omega

/-- Account mutation shape of generate-post: every path leaves the
account unchanged except the successful paid path, which decrements a
positive remainingPosts. -/
theorem generatePost_frame (pkg : Option Package) (a : Account) (now : Int) :
    (generatePost pkg a now).2 = a ∨
    ((generatePost pkg a now).1 = ConsumeResult.ok ∧
     0 < a.remainingPosts.getD 0 ∧
     (generatePost pkg a now).2 =
       { a with remainingPosts := some (a.remainingPosts.getD 0 - 1),
                updatedAt := some now }) := by
  unfold generatePost
  split
  · exact Or.inl rfl
  · split
    · exact Or.inl rfl
    · split
      · split
        · split
          · exact Or.inl rfl
          · exact Or.inl rfl
        · exact Or.inl rfl
      · split
        · exact Or.inl rfl
        · rename_i h
          simp only [Bool.not_eq_true] at h
          exact Or.inr ⟨rfl, paidCounterDenied_pos h, rfl⟩

/-- Account mutation shape of generate-group. -/
theorem generateGroup_frame (a : Account) (now : Int) :
    (generateGroup a now).2 = a ∨
    ((generateGroup a now).1 = ConsumeResult.ok ∧
     0 < a.maxGroup.getD 0 ∧
     (generateGroup a now).2 =
       { a with maxGroup := some (a.maxGroup.getD 0 - 1), updatedAt := some now }) := by
  unfold generateGroup
  split
  · exact Or.inl rfl
  · split
    · exact Or.inl rfl
    · split
      · exact Or.inl rfl
      · rename_i h
        simp only [decide_eq_true_eq] at h
        exact Or.inr ⟨rfl, by omega, rfl⟩

/-- Account mutation shape of generate-tasks: unchanged, or a successful
trial increment of trialPostsUsed, or a successful paid decrement of a
positive remainingPrompts. -/
theorem generateTasks_frame (pkg : Option Package) (a : Account) (post : Post)
    (genOk : Bool) (md : String) (now : Int) :
    (generateTasks pkg a post genOk md now).2.1 = a ∨
    ((generateTasks pkg a post genOk md now).1 = TasksResult.ok ∧
      ((generateTasks pkg a post genOk md now).2.1 =
         { a with trialPostsUsed := some (a.trialPostsUsed.getD 0 + 1),
                  updatedAt := some now } ∨
       (0 < a.remainingPrompts.getD 0 ∧
        (generateTasks pkg a post genOk md now).2.1 =
          { a with remainingPrompts := some (a.remainingPrompts.getD 0 - 1),
                   updatedAt := some now }))) := by
  unfold generateTasks
  split
  · exact Or.inl rfl
  · split
    · exact Or.inl rfl
    · split
      · exact Or.inl rfl
      · split
        · split
          · split
            · exact Or.inl rfl
            · split
              · exact Or.inr ⟨rfl, Or.inl rfl⟩
              · exact Or.inl rfl
          · split
            · exact Or.inr ⟨rfl, Or.inl rfl⟩
            · exact Or.inl rfl
        · split
          · exact Or.inl rfl
          · rename_i h
            simp only [Bool.not_eq_true] at h
            split
            · exact Or.inr ⟨rfl, Or.inr ⟨paidCounterDenied_pos h, rfl⟩⟩
            · exact Or.inl rfl

/-- Claim C8: for every account whose counters remainingPosts,
remainingPrompts and maxGroup are null or nonnegative, a single
generate-post, generate-tasks or generate-group operation leaves all
three counters null or nonnegative, and any run that does not succeed
stores the account unchanged (a failed check performs no write). -/
theorem claim8_counters_nonneg (pkg : Option Package) (a : Account) (post : Post)
    (genOk : Bool) (md : String) (now : Int)
    (hp : nonnegOpt a.remainingPosts) (hq : nonnegOpt a.remainingPrompts)
    (hg : nonnegOpt a.maxGroup) :
    (nonnegOpt (generatePost pkg a now).2.remainingPosts ∧
     nonnegOpt (generatePost pkg a now).2.remainingPrompts ∧
     nonnegOpt (generatePost pkg a now).2.maxGroup) ∧
    ((generatePost pkg a now).1 = ConsumeResult.ok ∨ (generatePost pkg a now).2 = a) ∧
    (nonnegOpt (generateTasks pkg a post genOk md now).2.1.remainingPosts ∧
     nonnegOpt (generateTasks pkg a post genOk md now).2.1.remainingPrompts ∧
     nonnegOpt (generateTasks pkg a post genOk md now).2.1.maxGroup) ∧
    ((generateTasks pkg a post genOk md now).1 = TasksResult.ok ∨
      (generateTasks pkg a post genOk md now).2.1 = a) ∧
    (nonnegOpt (generateGroup a now).2.remainingPosts ∧
     nonnegOpt (generateGroup a now).2.remainingPrompts ∧
     nonnegOpt (generateGroup a now).2.maxGroup) ∧
    ((generateGroup a now).1 = ConsumeResult.ok ∨ (generateGroup a now).2 = a) := by
  refine ⟨?_, ?_, ?_, ?_, ?_, ?_⟩
  · rcases generatePost_frame pkg a now with h | ⟨hok, hpos, h⟩
    · rw [h]; exact ⟨hp, hq, hg⟩
    · rw [h]; exact ⟨nonnegOpt_of_pos hpos, hq, hg⟩
  · rcases generatePost_frame pkg a now with h | ⟨hok, hpos, h⟩
    · exact Or.inr h
    · exact Or.inl hok
  · rcases generateTasks_frame pkg a post genOk md now with h | ⟨hok, h | ⟨hpos, h⟩⟩
    · rw [h]; exact ⟨hp, hq, hg⟩
    · rw [h]; exact ⟨hp, hq, hg⟩
    · rw [h]; exact ⟨hp, nonnegOpt_of_pos hpos, hg⟩
  · rcases generateTasks_frame pkg a post genOk md now with h | ⟨hok, hrest⟩
    · exact Or.inr h
    · exact Or.inl hok
  · rcases generateGroup_frame a now with h | ⟨hok, hpos, h⟩
    · rw [h]; exact ⟨hp, hq, hg⟩
    · rw [h]; exact ⟨hp, hq, nonnegOpt_of_pos hpos⟩
  · rcases generateGroup_frame a now with h | ⟨hok, hpos, h⟩
    · exact Or.inr h
    · exact Or.inl hok

/-- Claim C8 witness: counter nonnegativity at a concrete account. -/
theorem claim8_counters_nonneg_witness :
    nonnegOpt (generatePost none trialAcct 0).2.remainingPosts ∧
    nonnegOpt (generateTasks none trialAcct postFresh true "m" 0).2.1.remainingPrompts ∧
    nonnegOpt (generateGroup trialAcct 0).2.maxGroup := by
  have hp : nonnegOpt trialAcct.remainingPosts := by
    intro n hn; injection hn with h; omega
  have hq : nonnegOpt trialAcct.remainingPrompts := by
    intro n hn; injection hn with h; omega
  have hg : nonnegOpt trialAcct.maxGroup := by
    intro n hn; injection hn with h; omega
  have H := claim8_counters_nonneg none trialAcct postFresh true "m" 0 hp hq hg
  exact ⟨H.1.1, H.2.2.1.2.1, H.2.2.2.2.1.2.2⟩

end Spectrum
